import Mathlib

/-!
Shallow embedding of the PFsample library-management system
(src/book.py, src/user.py, src/library.py) and proofs of the
specification claims.

Modelling conventions:
* Python `str` is modelled as `List Char` (`Str`); `ofStr` converts a Lean
  string literal.
* The wall clock is an explicit parameter: timestamps (`datetime.now()`)
  are abstract `Nat` values `now`, and `datetime.now().year` is an `Int`
  parameter `cy` (current year).
* Python objects are immutable Lean records; every mutating method is a
  function returning the final state of all objects it may mutate,
  paired with `Except String α` for the Python return value or the raised
  `ValueError` message.  A `raise` site returns the state as mutated so
  far, so absence of partial mutation is a provable property, not one
  baked into the encoding.
* Object identity (Python `is`, the default `==` on these classes, used
  by `book in self.borrowed_books` and `list.remove`) is modelled by a
  `ref : Nat` token on `Book`; `User.borrowed_books` stores refs, which
  also models the aliasing of the Python list entries with the book
  object.  `Book.borrowed_by` stores the borrowing user's `id` string
  (the only part of the user the code ever reads from it).
* JSON payloads are modelled post-parsing: `BookData`, `UserData`,
  `LibraryData` are the parsed dictionaries.  A JSON object parsed by
  `json.load` has distinct keys in document order, so the loader loops
  are translated as structural recursion over the association list.
* File system writes are modelled by returning the document that
  `save_to_file` serializes; `load_from_file` takes such a document.
-/

namespace PFsample

/-- Python strings as lists of characters. -/
abbrev Str := List Char

/-- Conversion from a Lean string literal to the `Str` model. -/
def ofStr (s : String) : Str := s.data

/-- Codepoint ranges (inclusive) of the characters `c` with
`str.isdigit(c) = True` in CPython 3.11 (Unicode 14.0): the characters
whose Numeric_Type is Decimal or Digit.  This includes the ASCII digits
48-57 but also, e.g., superscript two (178) and the Arabic-Indic digits
(1632-1641). -/
def pyDigitRanges : List (Nat × Nat) :=
  [(48, 57), (178, 179), (185, 185), (1632, 1641), (1776, 1785),
   (1984, 1993), (2406, 2415), (2534, 2543), (2662, 2671), (2790, 2799),
   (2918, 2927), (3046, 3055), (3174, 3183), (3302, 3311), (3430, 3439),
   (3558, 3567), (3664, 3673), (3792, 3801), (3872, 3881), (4160, 4169),
   (4240, 4249), (4969, 4977), (6112, 6121), (6160, 6169), (6470, 6479),
   (6608, 6618), (6784, 6793), (6800, 6809), (6992, 7001), (7088, 7097),
   (7232, 7241), (7248, 7257), (8304, 8304), (8308, 8313), (8320, 8329),
   (9312, 9320), (9332, 9340), (9352, 9360), (9450, 9450), (9461, 9469),
   (9471, 9471), (10102, 10110), (10112, 10120), (10122, 10130),
   (42528, 42537), (43216, 43225), (43264, 43273), (43472, 43481),
   (43504, 43513), (43600, 43609), (44016, 44025), (65296, 65305),
   (66720, 66729), (68160, 68163), (68912, 68921), (69216, 69224),
   (69714, 69722), (69734, 69743), (69872, 69881), (69942, 69951),
   (70096, 70105), (70384, 70393), (70736, 70745), (70864, 70873),
   (71248, 71257), (71360, 71369), (71472, 71481), (71904, 71913),
   (72016, 72025), (72784, 72793), (73040, 73049), (73120, 73129),
   (92768, 92777), (92864, 92873), (93008, 93017), (120782, 120831),
   (123200, 123209), (123632, 123641), (125264, 125273),
   (127232, 127242), (130032, 130041)]

/-- Python `str.isdigit` on a single character. -/
def pyIsDigit (c : Char) : Bool :=
  pyDigitRanges.any (fun p => decide (p.1 ≤ c.toNat) && decide (c.toNat ≤ p.2))

/-- Membership of a character in the ASCII range 0-9 (what the spec calls
a decimal digit). -/
def isAsciiDigit (c : Char) : Bool := decide ('0' ≤ c) && decide (c ≤ '9')

/-- Book._validate_isbn: length exactly 13 and `isbn.isdigit()`. -/
def validate_isbn (isbn : Str) : Bool :=
  decide (isbn.length = 13) && isbn.all pyIsDigit

/-- BookGenre enumeration from book.py. -/
inductive BookGenre
  | FANTASY | MYSTERY | ROMANCE | BIOGRAPHY | SCIENCE | OTHER
deriving DecidableEq

/-- Python `genre.name` for `BookGenre`. -/
def BookGenre.name : BookGenre → Str
  | .FANTASY => ofStr "FANTASY"
  | .MYSTERY => ofStr "MYSTERY"
  | .ROMANCE => ofStr "ROMANCE"
  | .BIOGRAPHY => ofStr "BIOGRAPHY"
  | .SCIENCE => ofStr "SCIENCE"
  | .OTHER => ofStr "OTHER"

/-- Python `BookGenre[name]` lookup; `none` models the `KeyError` raised
on an unknown name. -/
def BookGenre.ofName (s : Str) : Option BookGenre :=
  if s = ofStr "FANTASY" then some .FANTASY
  else if s = ofStr "MYSTERY" then some .MYSTERY
  else if s = ofStr "ROMANCE" then some .ROMANCE
  else if s = ofStr "BIOGRAPHY" then some .BIOGRAPHY
  else if s = ofStr "SCIENCE" then some .SCIENCE
  else if s = ofStr "OTHER" then some .OTHER
  else none

/-- Book objects.  `ref` is the object-identity token (see the header);
`borrowed_by` stores the borrowing user's id string. -/
structure Book where
  ref : Nat
  title : Str
  author : Str
  isbn : Str
  publication_year : Int
  genre : BookGenre
  available : Bool
  borrow_date : Option Nat
  borrowed_by : Option Str
deriving DecidableEq

/-- Book.__init__: validates the ISBN, then the publication year against
the current year `cy`; on success the book is available with no borrower
and no borrow date.  The `Except.error` cases are the two `ValueError`
raises. -/
def Book.mk? (ref : Nat) (title author isbn : Str) (publication_year : Int)
    (genre : BookGenre) (cy : Int) : Except String Book :=
  if !validate_isbn isbn then .error "Invalid ISBN number"
  else if publication_year < 1450 || publication_year > cy then
    .error "Invalid publication year"
  else .ok { ref, title, author, isbn, publication_year, genre,
             available := true, borrow_date := none, borrowed_by := none }

/-- Book.borrow: raises if the book is unavailable, otherwise records the
borrower id and the borrow timestamp `now` and returns True. -/
def Book.borrow (b : Book) (uid : Str) (now : Nat) : Book × Except String Bool :=
  if !b.available then (b, .error "Book is already borrowed")
  else ({b with available := false, borrow_date := some now,
                borrowed_by := some uid}, .ok true)

/-- Book.return_book: unconditionally clears the borrow state. -/
def Book.return_book (b : Book) : Book × Except String Bool :=
  ({b with available := true, borrow_date := none, borrowed_by := none},
   .ok true)

/-- Parsed form of the JSON payload Book.to_json produces and
Book.from_json and Library.load_from_file consume.  The two optional
fields are present exactly when serialization emitted them. -/
structure BookData where
  title : Str
  author : Str
  isbn : Str
  publication_year : Int
  genre : Str
  available : Bool
  borrowed_by : Option Str := none
  borrow_date : Option Nat := none
deriving DecidableEq

/-- Book.to_json: always emits title, author, isbn, publication_year,
genre name and available; emits borrowed_by and borrow_date only when
the book is unavailable and borrowed_by is truthy (a user object, never
falsy, so: present). -/
def Book.to_json (b : Book) : BookData :=
  { title := b.title, author := b.author, isbn := b.isbn,
    publication_year := b.publication_year, genre := b.genre.name,
    available := b.available,
    borrowed_by := if !b.available && b.borrowed_by.isSome then b.borrowed_by else none,
    borrow_date := if !b.available && b.borrowed_by.isSome then b.borrow_date else none }

/-- Book.from_json: decodes the genre name (`BookGenre[...]`, KeyError on
an unknown name), runs the Book constructor on the payload fields, then
overwrites `available` with the payload value.  It does not reconstruct
borrowed_by or borrow_date.  `ref` is the fresh object-identity token. -/
def Book.from_json (d : BookData) (ref : Nat) (cy : Int) : Except String Book :=
  match BookGenre.ofName d.genre with
  | none => .error "KeyError: unknown genre name"
  | some g =>
    match Book.mk? ref d.title d.author d.isbn d.publication_year g cy with
    | .error e => .error e
    | .ok b => .ok { b with available := d.available }

/-- UserRole enumeration from user.py. -/
inductive UserRole
  | STUDENT | TEACHER | LIBRARIAN | ADMIN | GUEST
deriving DecidableEq

/-- Python `role.name` for `UserRole`. -/
def UserRole.name : UserRole → Str
  | .STUDENT => ofStr "STUDENT"
  | .TEACHER => ofStr "TEACHER"
  | .LIBRARIAN => ofStr "LIBRARIAN"
  | .ADMIN => ofStr "ADMIN"
  | .GUEST => ofStr "GUEST"

/-- Python `UserRole[name]` lookup; `none` models the `KeyError`. -/
def UserRole.ofName (s : Str) : Option UserRole :=
  if s = ofStr "STUDENT" then some .STUDENT
  else if s = ofStr "TEACHER" then some .TEACHER
  else if s = ofStr "LIBRARIAN" then some .LIBRARIAN
  else if s = ofStr "ADMIN" then some .ADMIN
  else if s = ofStr "GUEST" then some .GUEST
  else none

/-- Characters of the regex class `[a-zA-Z0-9._%+-]` (local part). -/
def isLocalChar (c : Char) : Bool :=
  c.isAlpha || c.isDigit || (c == '.') || (c == '_') || (c == '%') ||
  (c == '+') || (c == '-')

/-- Characters of the regex class `[a-zA-Z0-9.-]` (domain part). -/
def isDomainChar (c : Char) : Bool :=
  c.isAlpha || c.isDigit || (c == '.') || (c == '-')

/-- Matching of a string against the suffix `[a-zA-Z0-9.-]+\.[a-zA-Z]{2,}`
of the email regex: some position `j` holds the literal dot, a nonempty
all-domain-characters prefix precedes it, and at least two alphabetic
characters follow it to the end.  The existential over `j` is regex
concatenation; backtracking is modelled by trying every split. -/
def emailTailMatch (r : Str) : Bool :=
  (List.range r.length).any (fun j =>
    decide (r.get? j = some '.') && decide (0 < j) &&
    (r.take j).all isDomainChar &&
    (decide (j + 2 ≤ r.length - 1) && (r.drop (j + 1)).all Char.isAlpha))

/-- Matching of a whole string against
`[a-zA-Z0-9._%+-]+@[a-zA-Z0-9.-]+\.[a-zA-Z]{2,}`: some position `i`
holds the literal `@` (neither class contains `@`), a nonempty
all-local-characters prefix precedes it, and the rest matches the tail.
This is the language of the spec's pattern read as a whole-string
match. -/
def emailCoreMatch (s : Str) : Bool :=
  (List.range s.length).any (fun i =>
    decide (s.get? i = some '@') && decide (0 < i) &&
    (s.take i).all isLocalChar &&
    emailTailMatch (s.drop (i + 1)))

/-- User._validate_email: `bool(re.match(pattern, email))` where the
pattern is anchored with `^` and `$`.  In Python (without re.MULTILINE)
`$` matches at the end of the string or just before one trailing
newline, so the code also accepts a matching email followed by a single
final newline character. -/
def validate_email (s : Str) : Bool :=
  emailCoreMatch s ||
  (decide (s.getLast? = some '\n') && emailCoreMatch s.dropLast)

/-- User objects.  `borrowed_books` stores the `ref` tokens of the
borrowed Book objects (a Python list of references, order = borrow
order). -/
structure User where
  id : Str
  name : Str
  email : Str
  role : UserRole
  registration_date : Nat
  borrowed_books : List Nat
  active : Bool
deriving DecidableEq

/-- User.__init__: validates the email; on success the user is active
with an empty borrowed list and registration date `now`. -/
def User.mk? (id name email : Str) (role : UserRole) (now : Nat) :
    Except String User :=
  if !validate_email email then .error "Invalid email format"
  else .ok { id, name, email, role, registration_date := now,
             borrowed_books := [], active := true }

/-- User.borrow_book: raises if the user is inactive or the book is
already in the borrowed list; otherwise calls book.borrow (whose raise
propagates before the append) and appends the book reference. -/
def User.borrow_book (u : User) (b : Book) (now : Nat) :
    (User × Book) × Except String Bool :=
  if !u.active then ((u, b), .error "Inactive user cannot borrow books")
  else if b.ref ∈ u.borrowed_books then
    ((u, b), .error "Book is already borrowed by this user")
  else
    match Book.borrow b u.id now with
    | (b1, .error e) => ((u, b1), .error e)
    | (b1, .ok _) =>
      (({u with borrowed_books := u.borrowed_books ++ [b.ref]}, b1), .ok true)

/-- Removal of the first occurrence of a reference from a list, the model
of Python `list.remove` on the borrowed list. -/
def eraseFirst (n : Nat) : List Nat → List Nat
  | [] => []
  | m :: rest => if m = n then rest else m :: eraseFirst n rest

/-- User.return_book: raises if the book is not in the borrowed list;
otherwise calls book.return_book and removes the reference. -/
def User.return_book (u : User) (b : Book) :
    (User × Book) × Except String Bool :=
  if b.ref ∉ u.borrowed_books then
    ((u, b), .error "Book was not borrowed by this user")
  else
    match Book.return_book b with
    | (b1, .error e) => ((u, b1), .error e)
    | (b1, .ok _) =>
      (({u with borrowed_books := eraseFirst b.ref u.borrowed_books}, b1),
       .ok true)

/-- User.deactivate: raises if the borrowed list is nonempty (Python
truthiness of a list); otherwise clears `active`. -/
def User.deactivate (u : User) : User × Except String Bool :=
  if u.borrowed_books ≠ [] then
    (u, .error "Cannot deactivate user with borrowed books")
  else ({u with active := false}, .ok true)

/-- User.activate: unconditionally sets `active`. -/
def User.activate (u : User) : User × Except String Bool :=
  ({u with active := true}, .ok true)

/-- Parsed form of the JSON payload User.to_json produces. -/
structure UserData where
  id : Str
  name : Str
  email : Str
  role : Str
  registration_date : Nat
  active : Bool
  borrowed_books_count : Nat
deriving DecidableEq

/-- User.to_json: serializes id, name, email, role name, registration
date, active flag, and only the count of borrowed books. -/
def User.to_json (u : User) : UserData :=
  { id := u.id, name := u.name, email := u.email, role := u.role.name,
    registration_date := u.registration_date, active := u.active,
    borrowed_books_count := u.borrowed_books.length }

/-- Key membership in an association list, the model of Python
`k in dict` for the insertion-ordered book/user dictionaries. -/
def hasKey (k : Str) : List (Str × α) → Bool
  | [] => false
  | (k1, _) :: rest => if k1 = k then true else hasKey k rest

/-- Value lookup in an association list, the model of `dict[k]` and
`dict.get(k)`. -/
def lookupKey (k : Str) : List (Str × α) → Option α
  | [] => none
  | (k1, v) :: rest => if k1 = k then some v else lookupKey k rest

/-- Removal of the entry with a key from an association list, the model
of `dict.pop(k)` on a dictionary with distinct keys. -/
def removeKey (k : Str) : List (Str × α) → List (Str × α)
  | [] => []
  | (k1, v) :: rest => if k1 = k then rest else (k1, v) :: removeKey k rest

/-- ASCII lowering of one character.  This models Python `str.lower` on
the ASCII range; the full Unicode case mapping is not modelled — no
claim depends on the value of a lowered non-ASCII character, only on the
search functions being pure. -/
def charLower (c : Char) : Char :=
  if c.toNat < 91 && 64 < c.toNat then Char.ofNat (c.toNat + 32) else c

/-- Python `str.lower` on the ASCII range (see `charLower`). -/
def strLower (s : Str) : Str := s.map charLower

/-- Python substring containment `needle in hay` for strings: some
suffix of `hay` starts with `needle` (true for the empty needle). -/
def isSubstr (needle hay : Str) : Bool :=
  (List.range (hay.length + 1)).any (fun i =>
    List.isPrefixOf needle (hay.drop i))

/-- Library objects: name, location, the two insertion-ordered keyed
registries, and the creation timestamp. -/
structure Library where
  name : Str
  location : Str
  books : List (Str × Book)
  users : List (Str × User)
  creation_date : Nat
deriving DecidableEq

/-- Library.__init__: empty registries, creation date `now`. -/
def Library.init (name location : Str) (now : Nat) : Library :=
  { name, location, books := [], users := [], creation_date := now }

/-- Library.add_book: raises if the ISBN is already a key; otherwise
inserts under the book's own isbn (a new dict key is appended at the
end in insertion order). -/
def Library.add_book (L : Library) (b : Book) : Library × Except String Bool :=
  if hasKey b.isbn L.books then
    (L, .error "Book with this ISBN already exists in the library")
  else ({L with books := L.books ++ [(b.isbn, b)]}, .ok true)

/-- Library.remove_book: raises if the ISBN is absent, then if the book
is unavailable; otherwise pops and returns it. -/
def Library.remove_book (L : Library) (isbn : Str) :
    Library × Except String Book :=
  match lookupKey isbn L.books with
  | none => (L, .error "Book with this ISBN not found in the library")
  | some b =>
    if !b.available then
      (L, .error "Cannot remove book as it is currently borrowed")
    else ({L with books := removeKey isbn L.books}, .ok b)

/-- Library.find_book_by_isbn: `self.books.get(isbn)`; pure, no raise. -/
def Library.find_book_by_isbn (L : Library) (isbn : Str) :
    Library × Except String (Option Book) :=
  (L, .ok (lookupKey isbn L.books))

/-- Library.find_books_by_author: case-insensitive substring filter over
the registry values in insertion order; pure, no raise. -/
def Library.find_books_by_author (L : Library) (author : Str) :
    Library × Except String (List Book) :=
  (L, .ok ((L.books.map Prod.snd).filter
    (fun b => isSubstr (strLower author) (strLower b.author))))

/-- Library.find_books_by_title: case-insensitive substring filter over
the registry values in insertion order; pure, no raise. -/
def Library.find_books_by_title (L : Library) (title : Str) :
    Library × Except String (List Book) :=
  (L, .ok ((L.books.map Prod.snd).filter
    (fun b => isSubstr (strLower title) (strLower b.title))))

/-- Library.register_user: raises if the id is already a key; otherwise
inserts under the user's own id. -/
def Library.register_user (L : Library) (u : User) :
    Library × Except String Bool :=
  if hasKey u.id L.users then
    (L, .error "User with this ID already exists in the library")
  else ({L with users := L.users ++ [(u.id, u)]}, .ok true)

/-- Library.find_user: `self.users.get(user_id)`; pure, no raise. -/
def Library.find_user (L : Library) (uid : Str) :
    Library × Except String (Option User) :=
  (L, .ok (lookupKey uid L.users))

/-- Parsed form of the JSON document Library.save_to_file writes. -/
structure LibraryData where
  name : Str
  location : Str
  creation_date : Nat
  books : List (Str × BookData)
  users : List (Str × UserData)
deriving DecidableEq

/-- Library.save_to_file: serializes the library to one JSON document
(the write to the file system is modelled by returning the document). -/
def Library.save_to_file (L : Library) : LibraryData :=
  { name := L.name, location := L.location,
    creation_date := L.creation_date,
    books := L.books.map (fun p => (p.1, p.2.to_json)),
    users := L.users.map (fun p => (p.1, p.2.to_json)) }

/-- Book-loading loop of Library.load_from_file: for each entry, decode
the genre name (KeyError on failure), run the Book constructor on the
payload fields (propagating its ValueError), overwrite `available` from
the payload, and insert under the DICT KEY `k` — not under the payload's
own isbn field.  `i` numbers the fresh object-identity tokens. -/
def loadBooks (cy : Int) : List (Str × BookData) → Nat →
    Except String (List (Str × Book))
  | [], _ => .ok []
  | (k, d) :: rest, i =>
    match BookGenre.ofName d.genre with
    | none => .error "KeyError: unknown genre name"
    | some g =>
      match Book.mk? i d.title d.author d.isbn d.publication_year g cy with
      | .error e => .error e
      | .ok b =>
        match loadBooks cy rest (i + 1) with
        | .error e => .error e
        | .ok rest1 => .ok ((k, { b with available := d.available }) :: rest1)

/-- User-loading loop of Library.load_from_file: decode the role name,
run the User constructor (email validation, registration date reset to
`now`), overwrite `active` from the payload, insert under the dict key.
The borrowed list is NOT reconstructed: every loaded user starts with an
empty list. -/
def loadUsers (now : Nat) : List (Str × UserData) →
    Except String (List (Str × User))
  | [] => .ok []
  | (k, d) :: rest =>
    match UserRole.ofName d.role with
    | none => .error "KeyError: unknown role name"
    | some r =>
      match User.mk? d.id d.name d.email r now with
      | .error e => .error e
      | .ok u =>
        match loadUsers now rest with
        | .error e => .error e
        | .ok rest1 => .ok ((k, { u with active := d.active }) :: rest1)

/-- Library.load_from_file on a document that exists and parses: builds
a fresh Library (creation date `now`, the load time) and fills the two
registries with the loaded entries. -/
def Library.load_from_file (d : LibraryData) (now : Nat) (cy : Int) :
    Except String Library :=
  match loadBooks cy d.books 0 with
  | .error e => .error e
  | .ok bs =>
    match loadUsers now d.users with
    | .error e => .error e
    | .ok us =>
      .ok { name := d.name, location := d.location, books := bs,
            users := us, creation_date := now }

/-- Pointwise action of save-then-load on a book: fresh identity token,
serialized fields restored, availability copied, borrow state not
reconstructed. -/
def reloadBook (i : Nat) (b : Book) : Book :=
  { ref := i, title := b.title, author := b.author, isbn := b.isbn,
    publication_year := b.publication_year, genre := b.genre,
    available := b.available, borrow_date := none, borrowed_by := none }

/-- Pointwise action of save-then-load on a user: serialized fields
restored, registration date reset to load time, borrowed list reset to
empty, active flag copied. -/
def reloadUser (now : Nat) (u : User) : User :=
  { id := u.id, name := u.name, email := u.email, role := u.role,
    registration_date := now, borrowed_books := [], active := u.active }

/-- Co-nullity invariant of a Book's borrow state: available iff no
borrower iff no borrow date (claim C2's predicate). -/
def bookStateInv (b : Book) : Prop :=
  (b.available = true ↔ b.borrowed_by = none) ∧
  (b.available = true ↔ b.borrow_date = none)

instance (b : Book) : Decidable (bookStateInv b) := by
  unfold bookStateInv; infer_instance

/-- Registry-key invariant of a Library: every book key equals its
book's isbn and every user key equals its user's id (claim C7's
predicate). -/
def libraryKeysInv (L : Library) : Prop :=
  (∀ p ∈ L.books, p.1 = p.2.isbn) ∧ (∀ p ∈ L.users, p.1 = p.2.id)

instance (L : Library) : Decidable (libraryKeysInv L) := by
  unfold libraryKeysInv; infer_instance

/-- Tracking of whether a call returned normally (`ok`) or raised
(`error`). -/
def succeeds : Except String α → Bool
  | .ok _ => true
  | .error _ => false

/-- Sample available book used to instantiate theorems. -/
def bkA : Book :=
  { ref := 1, title := ofStr "Dune", author := ofStr "Herbert",
    isbn := ofStr "9783161484100", publication_year := 1965,
    genre := .FANTASY, available := true, borrow_date := none,
    borrowed_by := none }

/-- Sample active user with an empty borrowed list. -/
def usrA : User :=
  { id := ofStr "u1", name := ofStr "Ann", email := ofStr "ann@mail.com",
    role := .STUDENT, registration_date := 0, borrowed_books := [],
    active := true }

/-- Second sample user. -/
def usrB : User :=
  { id := ofStr "u2", name := ofStr "Bob", email := ofStr "bob@mail.com",
    role := .TEACHER, registration_date := 0, borrowed_books := [],
    active := true }

/-- Sample inactive user. -/
def usrC : User := { usrA with id := ofStr "u3", active := false }

/-- Sample user currently holding one book reference. -/
def usrD : User := { usrA with id := ofStr "u4", borrowed_books := [9] }

/-- State of `bkA` after `usrA` borrows it at time 5. -/
def bkA1 : Book :=
  { bkA with available := false, borrow_date := some 5,
             borrowed_by := some (ofStr "u1") }

/-- State of `usrA` after borrowing `bkA`. -/
def usrA1 : User := { usrA with borrowed_books := [1] }

/-- Sample library already containing `bkA` and `usrA`. -/
def libX : Library :=
  { name := ofStr "City", location := ofStr "Main",
    books := [(bkA.isbn, bkA)], users := [(usrA.id, usrA)],
    creation_date := 0 }

/-- Sample serialized book payload marked unavailable, as it appears in
a snapshot of a borrowed book. -/
def c2data : BookData :=
  { title := ofStr "Dune", author := ofStr "Herbert",
    isbn := ofStr "9783161484100", publication_year := 1965,
    genre := ofStr "FANTASY", available := false }

/-- Book that `Book.from_json c2data 0 2024` produces: unavailable, yet
with no borrower and no borrow date. -/
def c2book : Book :=
  { ref := 0, title := ofStr "Dune", author := ofStr "Herbert",
    isbn := ofStr "9783161484100", publication_year := 1965,
    genre := .FANTASY, available := false, borrow_date := none,
    borrowed_by := none }

/-- Serialized book payload whose isbn field will disagree with the
dict key it is filed under. -/
def c7bookdata : BookData :=
  { title := ofStr "T", author := ofStr "A",
    isbn := ofStr "2222222222222", publication_year := 2000,
    genre := ofStr "OTHER", available := true }

/-- A library snapshot whose books dict files `c7bookdata` under a key
different from the payload's own isbn field.  load_from_file accepts
it without comparing the two. -/
def c7data : LibraryData :=
  { name := ofStr "L", location := ofStr "M", creation_date := 0,
    books := [(ofStr "1111111111111", c7bookdata)], users := [] }

/-- Book that loading `c7data` constructs from `c7bookdata`. -/
def c7book : Book :=
  { ref := 0, title := ofStr "T", author := ofStr "A",
    isbn := ofStr "2222222222222", publication_year := 2000,
    genre := .OTHER, available := true, borrow_date := none,
    borrowed_by := none }

/-- Library that `Library.load_from_file c7data 7 2024` returns: the
key 1111111111111 maps to a book whose isbn is 2222222222222. -/
def c7lib : Library :=
  { name := ofStr "L", location := ofStr "M",
    books := [(ofStr "1111111111111", c7book)], users := [],
    creation_date := 7 }

/-- Library obtained by reloading the snapshot of `libX` at time 7:
fresh ref and registration date, everything else as saved. -/
def c7goodLib : Library :=
  { name := ofStr "City", location := ofStr "Main",
    books := [(ofStr "9783161484100", { bkA with ref := 0 })],
    users := [(ofStr "u1", { usrA with registration_date := 7 })],
    creation_date := 7 }

/-- Second sample book. -/
def bkB : Book :=
  { ref := 2, title := ofStr "Emma", author := ofStr "Austen",
    isbn := ofStr "9780141439587", publication_year := 1815,
    genre := .ROMANCE, available := true, borrow_date := none,
    borrowed_by := none }

/-- State of `bkB` after `usrB` borrows it at time 3. -/
def bkB1 : Book :=
  { bkB with available := false, borrow_date := some 3,
             borrowed_by := some (ofStr "u2") }

/-- State of `usrB` after borrowing `bkB`. -/
def usrB1 : User := { usrB with borrowed_books := [2] }

/-- Sample library in the spec's save/load scenario: two books and two
users, one book borrowed. -/
def libY : Library :=
  { name := ofStr "City", location := ofStr "Main",
    books := [(bkA.isbn, bkA), (bkB.isbn, bkB1)],
    users := [(usrA.id, usrA), (usrB.id, usrB1)],
    creation_date := 0 }

/-- C4 (counterexample): the claim says construction succeeds only when
every ISBN character is an ASCII decimal digit 0-9, but the code uses
Python `str.isdigit`, which also accepts other Unicode digit characters:
thirteen copies of superscript two (codepoint 178) pass validation. -/
theorem c4_counterexample :
    succeeds (Book.mk? 0 [] [] (List.replicate 13 (Char.ofNat 178)) 2000
      .OTHER 2024) = true ∧
    (List.replicate 13 (Char.ofNat 178)).all isAsciiDigit = false := by
  decide

/-- C4 (amended): for a publication year within range, Book construction
succeeds iff the ISBN has length exactly 13 and every character
satisfies Python str.isdigit (a superset of the ASCII digits 0-9). -/
theorem c4_amended (ref : Nat) (title author isbn : Str) (y : Int)
    (g : BookGenre) (cy : Int) (h1 : 1450 ≤ y) (h2 : y ≤ cy) :
    succeeds (Book.mk? ref title author isbn y g cy) = true ↔
      (isbn.length = 13 ∧ isbn.all pyIsDigit = true) := by
  have hy1 : ¬ y < 1450 := by omega
  have hy2 : ¬ y > cy := by omega
  unfold Book.mk? validate_isbn
  by_cases h13 : isbn.length = 13 <;> by_cases hall : isbn.all pyIsDigit = true <;>
    simp [h13, hall, hy1, hy2, succeeds]

/-- Witness for C4 at a concrete valid book. -/
theorem c4_amended_witness :
    succeeds (Book.mk? 1 (ofStr "Dune") (ofStr "Herbert")
      (ofStr "9783161484100") 1965 .FANTASY 2025) = true ↔
      ((ofStr "9783161484100").length = 13 ∧
        (ofStr "9783161484100").all pyIsDigit = true) :=
  c4_amended 1 (ofStr "Dune") (ofStr "Herbert") (ofStr "9783161484100")
    1965 .FANTASY 2025 (by decide) (by decide)

/-- C9 (confirmed): for a valid ISBN, Book construction succeeds iff the
publication year lies between 1450 and the current year (the year is an
integer by the type of the model). -/
theorem c9_year_validation (ref : Nat) (title author isbn : Str) (y : Int)
    (g : BookGenre) (cy : Int) (hisbn : validate_isbn isbn = true) :
    succeeds (Book.mk? ref title author isbn y g cy) = true ↔
      (1450 ≤ y ∧ y ≤ cy) := by
  unfold Book.mk?
  by_cases hlt : y < 1450 <;> by_cases hgt : y > cy <;>
    simp [hisbn, hlt, hgt, succeeds]
  omega

/-- Witness for C9 at a concrete valid book. -/
theorem c9_year_validation_witness :
    succeeds (Book.mk? 1 (ofStr "Dune") (ofStr "Herbert")
      (ofStr "9783161484100") 1965 .FANTASY 2025) = true ↔
      (1450 ≤ (1965 : Int) ∧ (1965 : Int) ≤ 2025) :=
  c9_year_validation 1 (ofStr "Dune") (ofStr "Herbert")
    (ofStr "9783161484100") 1965 .FANTASY 2025 (by decide)

/-- C8 (counterexample): the claim says construction succeeds only when
the email matches the documented pattern against the whole string, but
Python `$` also matches just before one trailing newline, so the code
accepts an email with a trailing newline character that the whole-string
pattern rejects. -/
theorem c8_counterexample :
    succeeds (User.mk? (ofStr "u9") (ofStr "Eve") (ofStr "a@b.co\n")
      .GUEST 0) = true ∧
    emailCoreMatch (ofStr "a@b.co\n") = false := by
  decide

/-- C8 (amended): User construction succeeds iff the email matches the
documented pattern against the whole string, or consists of such a match
followed by a single trailing newline (the Python `re.match` semantics
of `$`). -/
theorem c8_amended (id name email : Str) (role : UserRole) (now : Nat) :
    succeeds (User.mk? id name email role now) = true ↔
      (emailCoreMatch email = true ∨
       (email.getLast? = some '\n' ∧ emailCoreMatch email.dropLast = true)) := by
  unfold User.mk? validate_email
  by_cases h1 : emailCoreMatch email = true <;>
    by_cases h2 : email.getLast? = some '\n' <;>
      by_cases h3 : emailCoreMatch email.dropLast = true <;>
        simp [h1, h2, h3, succeeds]

/-- C10 (confirmed): the four query operations return the library
unchanged (all books and users included, since they are part of the
library value) and always return normally. -/
theorem c10_queries_pure (L : Library) (s : Str) :
    ((Library.find_book_by_isbn L s).1 = L ∧
      succeeds (Library.find_book_by_isbn L s).2 = true) ∧
    ((Library.find_books_by_author L s).1 = L ∧
      succeeds (Library.find_books_by_author L s).2 = true) ∧
    ((Library.find_books_by_title L s).1 = L ∧
      succeeds (Library.find_books_by_title L s).2 = true) ∧
    ((Library.find_user L s).1 = L ∧
      succeeds (Library.find_user L s).2 = true) :=
  ⟨⟨rfl, rfl⟩, ⟨rfl, rfl⟩, ⟨rfl, rfl⟩, ⟨rfl, rfl⟩⟩

/-- C2 (counterexample): the co-nullity invariant is not preserved by
Book.from_json — a payload with available = false is accepted and yields
a book with available = false but borrowed_by = none and
borrow_date = none, because from_json never reconstructs the borrower. -/
theorem c2_counterexample :
    Book.from_json c2data 0 2024 = .ok c2book ∧ ¬ bookStateInv c2book :=
  ⟨rfl, by decide⟩

/-- C2 (amended): the co-nullity invariant (available iff no borrower
iff no borrow date) holds after construction, is preserved by borrow and
by return_book (on success and on failure alike), and is established by
from_json exactly for payloads whose available field is true; a payload
with available = false produces a book that violates it. -/
theorem c2_amended :
    (∀ ref title author isbn y g cy b,
      Book.mk? ref title author isbn y g cy = .ok b → bookStateInv b) ∧
    (∀ b uid now, bookStateInv b → bookStateInv (Book.borrow b uid now).1) ∧
    (∀ b, bookStateInv (Book.return_book b).1) ∧
    (∀ d ref cy b, Book.from_json d ref cy = .ok b → d.available = true →
      bookStateInv b) := by
  refine ⟨?_, ?_, ?_, ?_⟩
  · intro ref title author isbn y g cy b h
    unfold Book.mk? at h
    split at h
    · exact absurd h (by simp)
    · split at h
      · exact absurd h (by simp)
      · cases h; exact ⟨by simp, by simp⟩
  · intro b uid now hb
    unfold Book.borrow
    split
    · exact hb
    · exact ⟨by simp, by simp⟩
  · intro b
    exact ⟨by simp [Book.return_book], by simp [Book.return_book]⟩
  · intro d ref cy b h hav
    unfold Book.from_json at h
    split at h
    · exact absurd h (by simp)
    · split at h
      · exact absurd h (by simp)
      · rename_i g hg b1 hb1
        cases h
        have : b1.borrowed_by = none ∧ b1.borrow_date = none := by
          unfold Book.mk? at hb1
          split at hb1
          · exact absurd hb1 (by simp)
          · split at hb1
            · exact absurd hb1 (by simp)
            · cases hb1; exact ⟨rfl, rfl⟩
        exact ⟨by simp [hav, this.1], by simp [hav, this.2]⟩

/-- Witness for C2 at concrete inputs: construction of `bkA`, a borrow,
a return, and a from_json of an available payload all satisfy the
invariant. -/
theorem c2_amended_witness :
    bookStateInv bkA ∧ bookStateInv (Book.borrow bkA (ofStr "u1") 5).1 ∧
    bookStateInv (Book.return_book bkA).1 ∧
    bookStateInv { c2book with available := true } :=
  ⟨c2_amended.1 1 (ofStr "Dune") (ofStr "Herbert") (ofStr "9783161484100")
      1965 .FANTASY 2025 bkA rfl,
   c2_amended.2.1 bkA (ofStr "u1") 5 (by decide),
   c2_amended.2.2.1 bkA,
   c2_amended.2.2.2 { c2data with available := true } 0 2024
      { c2book with available := true } rfl rfl⟩

/-- Removing a reference just appended to a list it did not occur in
restores the original list. -/
theorem eraseFirst_append_self (n : Nat) (l : List Nat) (h : n ∉ l) :
    eraseFirst n (l ++ [n]) = l := by
  induction l with
  | nil => simp [eraseFirst]
  | cons m rest ih =>
    have hm : ¬ m = n := fun e => h (e ▸ List.mem_cons_self m rest)
    have hrest : n ∉ rest := fun hx => h (List.mem_cons_of_mem m hx)
    simp [eraseFirst, hm, ih hrest]

/-- C1 (confirmed): for an available book with no borrow state and an
active user not holding it, borrow_book then return_book both succeed
and restore the book's availability, empty borrower and borrow date,
and the user's original borrowed list. -/
theorem c1_borrow_return_roundtrip (u : User) (b : Book) (now : Nat)
    (hav : b.available = true) (_hbb : b.borrowed_by = none)
    (_hbd : b.borrow_date = none) (hact : u.active = true)
    (hmem : b.ref ∉ u.borrowed_books) :
    ∃ u1 b1, User.borrow_book u b now = ((u1, b1), .ok true) ∧
      ∃ u2 b2, User.return_book u1 b1 = ((u2, b2), .ok true) ∧
        b2.available = true ∧ b2.borrowed_by = none ∧
        b2.borrow_date = none ∧ u2.borrowed_books = u.borrowed_books := by
  have h1 : User.borrow_book u b now =
      (({u with borrowed_books := u.borrowed_books ++ [b.ref]},
        {b with available := false, borrow_date := some now,
                borrowed_by := some u.id}), .ok true) := by
    unfold User.borrow_book Book.borrow
    simp [hact, hmem, hav]
  have h2 : User.return_book
      {u with borrowed_books := u.borrowed_books ++ [b.ref]}
      {b with available := false, borrow_date := some now,
              borrowed_by := some u.id} =
      ((u, {b with available := true, borrow_date := none,
                   borrowed_by := none}), .ok true) := by
    unfold User.return_book Book.return_book
    simp [eraseFirst_append_self b.ref u.borrowed_books hmem]
  exact ⟨_, _, h1, u, _, h2, rfl, rfl, rfl, rfl⟩

/-- Witness for C1 with the sample user and book. -/
theorem c1_borrow_return_roundtrip_witness :
    ∃ u1 b1, User.borrow_book usrA bkA 5 = ((u1, b1), .ok true) ∧
      ∃ u2 b2, User.return_book u1 b1 = ((u2, b2), .ok true) ∧
        b2.available = true ∧ b2.borrowed_by = none ∧
        b2.borrow_date = none ∧ u2.borrowed_books = usrA.borrowed_books :=
  c1_borrow_return_roundtrip usrA bkA 5 rfl rfl rfl rfl (by decide)

/-- Success of Book.borrow forces the result to be unavailable. -/
theorem borrow_ok_unavailable (b : Book) (uid : Str) (now : Nat)
    (b1 : Book) (r : Bool) (h : Book.borrow b uid now = (b1, .ok r)) :
    b1.available = false := by
  unfold Book.borrow at h
  split at h
  · exact absurd h (by simp)
  · cases h; rfl

/-- C5 (confirmed): after a successful borrow_book of b by u, any
borrow_book of the same book object by any user (the same or another)
raises and leaves both that user and the book unchanged. -/
theorem c5_double_borrow (u : User) (b : Book) (now : Nat) (u1 : User)
    (b1 : Book) (r : Bool)
    (h : User.borrow_book u b now = ((u1, b1), .ok r))
    (v : User) (now2 : Nat) :
    ∃ e, User.borrow_book v b1 now2 = ((v, b1), .error e) := by
  have hb1 : b1.available = false := by
    unfold User.borrow_book at h
    split at h
    · exact absurd h (by simp)
    · split at h
      · exact absurd h (by simp)
      · rcases hBB : Book.borrow b u.id now with ⟨bb, ee⟩
        rw [hBB] at h
        cases ee with
        | error e => simp at h
        | ok rr =>
          have : b1 = bb := by simp at h; exact h.1.2.symm
          exact this ▸ borrow_ok_unavailable b u.id now bb rr hBB
  by_cases hva : v.active = true
  · by_cases hvm : b1.ref ∈ v.borrowed_books
    · exact ⟨"Book is already borrowed by this user",
        by simp [User.borrow_book, hva, hvm]⟩
    · exact ⟨"Book is already borrowed",
        by simp [User.borrow_book, Book.borrow, hva, hvm, hb1]⟩
  · have hva2 : v.active = false := by
      cases hx : v.active with
      | true => exact absurd hx hva
      | false => rfl
    exact ⟨"Inactive user cannot borrow books",
      by simp [User.borrow_book, hva2]⟩

/-- Witness for C5: after the sample borrow, a second borrow by the
other sample user fails without changing anything. -/
theorem c5_double_borrow_witness :
    ∃ e, User.borrow_book usrB bkA1 7 = ((usrB, bkA1), .error e) :=
  c5_double_borrow usrA bkA 5 usrA1 bkA1 true rfl usrB 7

/-- C6 (confirmed): every listed mutating operation that raises leaves
every involved object exactly as it was before the call — in the model,
the returned state of a raising call equals the input state.  (Raise
sites return the state as mutated so far, so this is a property of the
code's validate-before-mutate ordering, not of the encoding.) -/
theorem c6_no_partial_mutation :
    (∀ L b e, (Library.add_book L b).2 = .error e →
      (Library.add_book L b).1 = L) ∧
    (∀ L s e, (Library.remove_book L s).2 = .error e →
      (Library.remove_book L s).1 = L) ∧
    (∀ L u e, (Library.register_user L u).2 = .error e →
      (Library.register_user L u).1 = L) ∧
    (∀ u b now e, (User.borrow_book u b now).2 = .error e →
      (User.borrow_book u b now).1 = (u, b)) ∧
    (∀ u b e, (User.return_book u b).2 = .error e →
      (User.return_book u b).1 = (u, b)) ∧
    (∀ u e, (User.deactivate u).2 = .error e →
      (User.deactivate u).1 = u) := by
  refine ⟨?_, ?_, ?_, ?_, ?_, ?_⟩
  · intro L b e h
    by_cases hk : hasKey b.isbn L.books = true
    · simp [Library.add_book, hk]
    · simp [Library.add_book, hk] at h
  · intro L s e h
    rcases hl : lookupKey s L.books with _ | b
    · simp [Library.remove_book, hl]
    · by_cases hav : b.available = true
      · simp [Library.remove_book, hl, hav] at h
      · have hav2 : b.available = false := by
          cases hx : b.available with
          | true => exact absurd hx hav
          | false => rfl
        simp [Library.remove_book, hl, hav2]
  · intro L u e h
    by_cases hk : hasKey u.id L.users = true
    · simp [Library.register_user, hk]
    · simp [Library.register_user, hk] at h
  · intro u b now e h
    by_cases ha : u.active = true
    · by_cases hm : b.ref ∈ u.borrowed_books
      · simp [User.borrow_book, ha, hm]
      · by_cases hav : b.available = true
        · simp [User.borrow_book, Book.borrow, ha, hm, hav] at h
        · have hav2 : b.available = false := by
            cases hx : b.available with
            | true => exact absurd hx hav
            | false => rfl
          simp [User.borrow_book, Book.borrow, ha, hm, hav2]
    · have ha2 : u.active = false := by
        cases hx : u.active with
        | true => exact absurd hx ha
        | false => rfl
      simp [User.borrow_book, ha2]
  · intro u b e h
    by_cases hm : b.ref ∈ u.borrowed_books
    · simp [User.return_book, Book.return_book, hm] at h
    · simp [User.return_book, hm]
  · intro u e h
    by_cases hb : u.borrowed_books = []
    · simp [User.deactivate, hb] at h
    · simp [User.deactivate, hb]

/-- Witness for C6: one concrete rejected call of each operation leaves
its concrete input state unchanged. -/
theorem c6_no_partial_mutation_witness :
    (Library.add_book libX bkA).1 = libX ∧
    (Library.remove_book libX (ofStr "0000000000000")).1 = libX ∧
    (Library.register_user libX usrA).1 = libX ∧
    (User.borrow_book usrC bkA 3).1 = (usrC, bkA) ∧
    (User.return_book usrA bkA).1 = (usrA, bkA) ∧
    (User.deactivate usrD).1 = usrD :=
  ⟨c6_no_partial_mutation.1 libX bkA
      "Book with this ISBN already exists in the library" rfl,
   c6_no_partial_mutation.2.1 libX (ofStr "0000000000000")
      "Book with this ISBN not found in the library" rfl,
   c6_no_partial_mutation.2.2.1 libX usrA
      "User with this ID already exists in the library" rfl,
   c6_no_partial_mutation.2.2.2.1 usrC bkA 3
      "Inactive user cannot borrow books" rfl,
   c6_no_partial_mutation.2.2.2.2.1 usrA bkA
      "Book was not borrowed by this user" rfl,
   c6_no_partial_mutation.2.2.2.2.2 usrD
      "Cannot deactivate user with borrowed books" rfl⟩

/-- Field values of a successfully constructed Book. -/
theorem book_mk_fields {ref : Nat} {t a i : Str} {y : Int} {g : BookGenre}
    {cy : Int} {b : Book} (h : Book.mk? ref t a i y g cy = .ok b) :
    b.ref = ref ∧ b.title = t ∧ b.author = a ∧ b.isbn = i ∧
    b.publication_year = y ∧ b.genre = g ∧ b.available = true ∧
    b.borrow_date = none ∧ b.borrowed_by = none := by
  unfold Book.mk? at h
  split at h
  · exact absurd h (by simp)
  · split at h
    · exact absurd h (by simp)
    · cases h; exact ⟨rfl, rfl, rfl, rfl, rfl, rfl, rfl, rfl, rfl⟩

/-- Field values of a successfully constructed User. -/
theorem user_mk_fields {i n e : Str} {r : UserRole} {now : Nat} {u : User}
    (h : User.mk? i n e r now = .ok u) :
    u.id = i ∧ u.name = n ∧ u.email = e ∧ u.role = r ∧
    u.registration_date = now ∧ u.borrowed_books = [] ∧
    u.active = true := by
  unfold User.mk? at h
  split at h
  · exact absurd h (by simp)
  · cases h; exact ⟨rfl, rfl, rfl, rfl, rfl, rfl, rfl⟩

/-- Every entry produced by the book-loading loop keeps the dict key of
its source entry and carries the isbn of the source payload. -/
theorem loadBooks_entries (cy : Int) :
    ∀ (l : List (Str × BookData)) (i : Nat) (bs : List (Str × Book)),
    loadBooks cy l i = .ok bs →
    ∀ q ∈ bs, ∃ p ∈ l, q.1 = p.1 ∧ q.2.isbn = p.2.isbn := by
  intro l
  induction l with
  | nil =>
    intro i bs h q hq
    unfold loadBooks at h
    cases h
    simp at hq
  | cons p rest ih =>
    intro i bs h q hq
    unfold loadBooks at h
    rcases hg : BookGenre.ofName p.2.genre with _ | g
    · rw [hg] at h; exact absurd h (by simp)
    · rw [hg] at h
      dsimp only at h
      rcases hb : Book.mk? i p.2.title p.2.author p.2.isbn
          p.2.publication_year g cy with e | b
      · rw [hb] at h; exact absurd h (by simp)
      · rw [hb] at h
        dsimp only at h
        rcases hrest : loadBooks cy rest (i + 1) with e | rest1
        · rw [hrest] at h; exact absurd h (by simp)
        · rw [hrest] at h
          dsimp only at h
          cases h
          cases hq with
          | head =>
            exact ⟨p, List.mem_cons_self p rest, rfl,
              (book_mk_fields hb).2.2.2.1⟩
          | tail _ hq2 =>
            obtain ⟨p2, hp2, he⟩ := ih (i + 1) rest1 hrest q hq2
            exact ⟨p2, List.mem_cons_of_mem p hp2, he⟩

/-- Every entry produced by the user-loading loop keeps the dict key of
its source entry, carries the id of the source payload, and starts with
an empty borrowed list. -/
theorem loadUsers_entries (now : Nat) :
    ∀ (l : List (Str × UserData)) (us : List (Str × User)),
    loadUsers now l = .ok us →
    ∀ q ∈ us, (∃ p ∈ l, q.1 = p.1 ∧ q.2.id = p.2.id) ∧
      q.2.borrowed_books = [] := by
  intro l
  induction l with
  | nil =>
    intro us h q hq
    unfold loadUsers at h
    cases h
    simp at hq
  | cons p rest ih =>
    intro us h q hq
    unfold loadUsers at h
    rcases hr : UserRole.ofName p.2.role with _ | r
    · rw [hr] at h; exact absurd h (by simp)
    · rw [hr] at h
      dsimp only at h
      rcases hu : User.mk? p.2.id p.2.name p.2.email r now with e | u
      · rw [hu] at h; exact absurd h (by simp)
      · rw [hu] at h
        dsimp only at h
        rcases hrest : loadUsers now rest with e | rest1
        · rw [hrest] at h; exact absurd h (by simp)
        · rw [hrest] at h
          dsimp only at h
          cases h
          cases hq with
          | head =>
            exact ⟨⟨p, List.mem_cons_self p rest, rfl, (user_mk_fields hu).1⟩,
              (user_mk_fields hu).2.2.2.2.2.1⟩
          | tail _ hq2 =>
            obtain ⟨⟨p2, hp2, he⟩, hbb⟩ := ih rest1 hrest q hq2
            exact ⟨⟨p2, List.mem_cons_of_mem p hp2, he⟩, hbb⟩

/-- Entries surviving a key removal were entries of the original list. -/
theorem mem_removeKey (k : Str) (l : List (Str × α)) :
    ∀ p ∈ removeKey k l, p ∈ l := by
  induction l with
  | nil => intro p hp; simp [removeKey] at hp
  | cons q rest ih =>
    intro p hp
    unfold removeKey at hp
    by_cases hqk : q.1 = k
    · rw [if_pos hqk] at hp
      exact List.mem_cons_of_mem q hp
    · rw [if_neg hqk] at hp
      cases hp with
      | head => exact List.mem_cons_self q rest
      | tail _ hp2 => exact List.mem_cons_of_mem q (ih p hp2)

/-- C7 (counterexample): load_from_file accepts a snapshot whose books
dict files a payload under a key different from the payload's isbn, and
the resulting library violates the key invariant. -/
theorem c7_counterexample :
    Library.load_from_file c7data 7 2024 = .ok c7lib ∧
    ¬ libraryKeysInv c7lib :=
  ⟨rfl, by decide⟩

/-- C7 (amended): the key invariant (book keys equal their book's isbn,
user keys equal their user's id) holds for a freshly constructed
library, is preserved by add_book, remove_book and register_user
(whether they succeed or raise), and holds after load_from_file for
exactly those accepted files whose dict keys agree with the payloads'
own isbn and id fields — as the files written by save_to_file do; an
accepted file with a mismatched key yields a library violating it. -/
theorem c7_amended :
    (∀ n loc now, libraryKeysInv (Library.init n loc now)) ∧
    (∀ L b, libraryKeysInv L → libraryKeysInv (Library.add_book L b).1) ∧
    (∀ L s, libraryKeysInv L → libraryKeysInv (Library.remove_book L s).1) ∧
    (∀ L u, libraryKeysInv L → libraryKeysInv (Library.register_user L u).1) ∧
    (∀ d now cy L, Library.load_from_file d now cy = .ok L →
      (∀ p ∈ d.books, p.1 = p.2.isbn) → (∀ p ∈ d.users, p.1 = p.2.id) →
      libraryKeysInv L) := by
  refine ⟨?_, ?_, ?_, ?_, ?_⟩
  · intro n loc now
    exact ⟨by simp [Library.init], by simp [Library.init]⟩
  · intro L b hL
    by_cases hk : hasKey b.isbn L.books = true
    · simpa [Library.add_book, hk] using hL
    · have hk2 : hasKey b.isbn L.books = false := by
        cases hx : hasKey b.isbn L.books with
        | true => exact absurd hx hk
        | false => rfl
      refine ⟨?_, ?_⟩
      · intro p hp
        simp [Library.add_book, hk2] at hp
        rcases hp with hp | hp
        · exact hL.1 p hp
        · rw [hp]
      · intro p hp
        simp [Library.add_book, hk2] at hp
        exact hL.2 p hp
  · intro L s hL
    rcases hl : lookupKey s L.books with _ | b
    · simpa [Library.remove_book, hl] using hL
    · by_cases hav : b.available = true
      · refine ⟨?_, ?_⟩
        · intro p hp
          simp [Library.remove_book, hl, hav] at hp
          exact hL.1 p (mem_removeKey s L.books p hp)
        · intro p hp
          simp [Library.remove_book, hl, hav] at hp
          exact hL.2 p hp
      · have hav2 : b.available = false := by
          cases hx : b.available with
          | true => exact absurd hx hav
          | false => rfl
        simpa [Library.remove_book, hl, hav2] using hL
  · intro L u hL
    by_cases hk : hasKey u.id L.users = true
    · simpa [Library.register_user, hk] using hL
    · have hk2 : hasKey u.id L.users = false := by
        cases hx : hasKey u.id L.users with
        | true => exact absurd hx hk
        | false => rfl
      refine ⟨?_, ?_⟩
      · intro p hp
        simp [Library.register_user, hk2] at hp
        exact hL.1 p hp
      · intro p hp
        simp [Library.register_user, hk2] at hp
        rcases hp with hp | hp
        · exact hL.2 p hp
        · rw [hp]
  · intro d now cy L h hbk huk
    unfold Library.load_from_file at h
    split at h
    · exact absurd h (by simp)
    · rename_i bs hbs
      split at h
      · exact absurd h (by simp)
      · rename_i us hus
        cases h
        refine ⟨?_, ?_⟩
        · intro q hq
          obtain ⟨p, hp, hk, hi⟩ := loadBooks_entries cy d.books 0 bs hbs q hq
          rw [hk, hi]
          exact hbk p hp
        · intro q hq
          obtain ⟨⟨p, hp, hk, hi⟩, _⟩ :=
            loadUsers_entries now d.users us hus q hq
          rw [hk, hi]
          exact huk p hp

/-- Witness for C7: a fresh library, an add into it, and a reload of the
snapshot of `libX` all satisfy the key invariant. -/
theorem c7_amended_witness :
    libraryKeysInv (Library.init (ofStr "L") (ofStr "M") 0) ∧
    libraryKeysInv (Library.add_book (Library.init (ofStr "L") (ofStr "M") 0) bkA).1 ∧
    libraryKeysInv c7goodLib :=
  ⟨c7_amended.1 (ofStr "L") (ofStr "M") 0,
   c7_amended.2.1 (Library.init (ofStr "L") (ofStr "M") 0) bkA
      (c7_amended.1 (ofStr "L") (ofStr "M") 0),
   c7_amended.2.2.2.2 (Library.save_to_file libX) 7 2024 c7goodLib rfl
      (by decide) (by decide)⟩

/-- Genre names decode back to the genre they name. -/
theorem genre_ofName_name (g : BookGenre) :
    BookGenre.ofName g.name = some g := by
  cases g <;> rfl

/-- Role names decode back to the role they name. -/
theorem role_ofName_name (r : UserRole) :
    UserRole.ofName r.name = some r := by
  cases r <;> rfl

/-- Book-loading loop applied to the output of book serialization: it
succeeds on any list of validly constructed books, keeps the key list,
and reconstructs each entry's title, author, isbn, publication year,
genre and availability flag. -/
theorem loadBooks_save (cy : Int) (l : List (Str × Book)) :
    ∀ i, (∀ p ∈ l, validate_isbn p.2.isbn = true ∧
      1450 ≤ p.2.publication_year ∧ p.2.publication_year ≤ cy) →
    ∃ bs, loadBooks cy (l.map (fun p => (p.1, p.2.to_json))) i = .ok bs ∧
      bs.map Prod.fst = l.map Prod.fst ∧
      ∀ p ∈ l, ∃ b2, (p.1, b2) ∈ bs ∧
        b2.title = p.2.title ∧ b2.author = p.2.author ∧
        b2.isbn = p.2.isbn ∧ b2.publication_year = p.2.publication_year ∧
        b2.genre = p.2.genre ∧ b2.available = p.2.available := by
  induction l with
  | nil =>
    intro i h
    exact ⟨[], rfl, rfl, by simp⟩
  | cons p rest ih =>
    intro i h
    obtain ⟨hisbn, hy1, hy2⟩ := h p (List.mem_cons_self p rest)
    obtain ⟨bs1, hbs1, hkeys, hfields⟩ :=
      ih (i + 1) (fun q hq => h q (List.mem_cons_of_mem p hq))
    have hne1 : ¬ p.2.publication_year < 1450 := by omega
    have hne2 : ¬ p.2.publication_year > cy := by omega
    have hmk : Book.mk? i p.2.title p.2.author p.2.isbn
        p.2.publication_year p.2.genre cy =
        .ok { ref := i, title := p.2.title, author := p.2.author,
              isbn := p.2.isbn, publication_year := p.2.publication_year,
              genre := p.2.genre, available := true, borrow_date := none,
              borrowed_by := none } := by
      simp [Book.mk?, hisbn, hne1, hne2]
    have hstep : loadBooks cy
        ((p :: rest).map (fun p => (p.1, p.2.to_json))) i =
        .ok ((p.1, reloadBook i p.2) :: bs1) := by
      unfold loadBooks reloadBook
      dsimp only [List.map, Book.to_json]
      rw [genre_ofName_name]
      dsimp only
      rw [hmk]
      dsimp only
      dsimp only [Book.to_json] at hbs1
      rw [hbs1]
    refine ⟨_, hstep, ?_, ?_⟩
    · dsimp only [List.map]
      rw [hkeys]
    · intro q hq
      cases hq with
      | head =>
        exact ⟨_, List.mem_cons_self _ _, rfl, rfl, rfl, rfl, rfl, rfl⟩
      | tail _ hq2 =>
        obtain ⟨b2, hmem, hrest⟩ := hfields q hq2
        exact ⟨b2, List.mem_cons_of_mem _ hmem, hrest⟩

/-- User-loading loop applied to the output of user serialization: it
succeeds on any list of validly constructed users and keeps the key
list. -/
theorem loadUsers_save (now : Nat) (l : List (Str × User)) :
    (∀ p ∈ l, validate_email p.2.email = true) →
    ∃ us, loadUsers now (l.map (fun p => (p.1, p.2.to_json))) = .ok us ∧
      us.map Prod.fst = l.map Prod.fst := by
  induction l with
  | nil =>
    intro h
    exact ⟨[], rfl, rfl⟩
  | cons p rest ih =>
    intro h
    have hemail := h p (List.mem_cons_self p rest)
    obtain ⟨us1, hus1, hkeys⟩ :=
      ih (fun q hq => h q (List.mem_cons_of_mem p hq))
    have hmk : User.mk? p.2.id p.2.name p.2.email p.2.role now =
        .ok { id := p.2.id, name := p.2.name, email := p.2.email,
              role := p.2.role, registration_date := now,
              borrowed_books := [], active := true } := by
      simp [User.mk?, hemail]
    have hstep : loadUsers now
        ((p :: rest).map (fun p => (p.1, p.2.to_json))) =
        .ok ((p.1, reloadUser now p.2) :: us1) := by
      unfold loadUsers reloadUser
      dsimp only [List.map, User.to_json]
      rw [role_ofName_name]
      dsimp only
      rw [hmk]
      dsimp only
      dsimp only [User.to_json] at hus1
      rw [hus1]
    refine ⟨_, hstep, ?_⟩
    dsimp only [List.map]
    rw [hkeys]

/-- C3 (confirmed): reloading the document saved from a library (whose
books and users passed construction-time validation) succeeds; the
reloaded books and users registries have the same key lists (hence key
sets and counts) as the original; every book available in the original
is reconstructed with identical title, author, isbn, publication year,
genre and available = true; every borrowed book is reconstructed with
available = false; and every reconstructed user has an empty borrowed
list. -/
theorem c3_save_load_roundtrip (L : Library) (cy : Int) (now : Nat)
    (hb : ∀ p ∈ L.books, validate_isbn p.2.isbn = true ∧
      1450 ≤ p.2.publication_year ∧ p.2.publication_year ≤ cy)
    (hu : ∀ p ∈ L.users, validate_email p.2.email = true) :
    ∃ L2, Library.load_from_file (Library.save_to_file L) now cy = .ok L2 ∧
      L2.books.map Prod.fst = L.books.map Prod.fst ∧
      L2.users.map Prod.fst = L.users.map Prod.fst ∧
      (∀ p ∈ L.books, p.2.available = true → ∃ b2, (p.1, b2) ∈ L2.books ∧
        b2.title = p.2.title ∧ b2.author = p.2.author ∧
        b2.isbn = p.2.isbn ∧ b2.publication_year = p.2.publication_year ∧
        b2.genre = p.2.genre ∧ b2.available = true) ∧
      (∀ p ∈ L.books, p.2.available = false →
        ∃ b2, (p.1, b2) ∈ L2.books ∧ b2.available = false) ∧
      (∀ q ∈ L2.users, q.2.borrowed_books = []) := by
  obtain ⟨bs, hbs, hbkeys, hbfields⟩ := loadBooks_save cy L.books 0 hb
  obtain ⟨us, hus, hukeys⟩ := loadUsers_save now L.users hu
  have hload : Library.load_from_file (Library.save_to_file L) now cy =
      .ok { name := L.name, location := L.location, books := bs,
            users := us, creation_date := now } := by
    unfold Library.load_from_file Library.save_to_file
    dsimp only
    rw [hbs]
    dsimp only
    rw [hus]
  refine ⟨_, hload, hbkeys, hukeys, ?_, ?_, ?_⟩
  · intro p hp hav
    obtain ⟨b2, hmem, ht, ha, hi2, hy, hg, hav2⟩ := hbfields p hp
    exact ⟨b2, hmem, ht, ha, hi2, hy, hg, hav2.trans hav⟩
  · intro p hp hav
    obtain ⟨b2, hmem, _, _, _, _, _, hav2⟩ := hbfields p hp
    exact ⟨b2, hmem, hav2.trans hav⟩
  · intro q hq
    exact (loadUsers_entries now
      (L.users.map (fun p => (p.1, p.2.to_json))) us hus q hq).2

/-- Witness for C3 on the spec's scenario library `libY` (two books, two
users, one book borrowed). -/
theorem c3_save_load_roundtrip_witness :
    ∃ L2, Library.load_from_file (Library.save_to_file libY) 9 2024 = .ok L2 ∧
      L2.books.map Prod.fst = libY.books.map Prod.fst ∧
      L2.users.map Prod.fst = libY.users.map Prod.fst ∧
      (∀ p ∈ libY.books, p.2.available = true → ∃ b2, (p.1, b2) ∈ L2.books ∧
        b2.title = p.2.title ∧ b2.author = p.2.author ∧
        b2.isbn = p.2.isbn ∧ b2.publication_year = p.2.publication_year ∧
        b2.genre = p.2.genre ∧ b2.available = true) ∧
      (∀ p ∈ libY.books, p.2.available = false →
        ∃ b2, (p.1, b2) ∈ L2.books ∧ b2.available = false) ∧
      (∀ q ∈ L2.users, q.2.borrowed_books = []) :=
  c3_save_load_roundtrip libY 2024 9 (by decide) (by decide)

end PFsample
